import Mathlib

/-!
Verification of the Wisham property-rental management application.

This file gives a shallow embedding of the business logic of the repository
(Django models, forms and views in `users/`, `properties/` and `payments/`)
and proves, or refutes, the frozen specification claims about it.

Modelling conventions:
* money (`DecimalField`) is modelled as `ℚ` (the `Decimal('1.13')` literal is
  exact in decimal arithmetic, so `ℚ` is faithful);
* timestamps (`DateTimeField`) are modelled as `ℤ` seconds, dates as `ℤ` days;
* nullable fields are `Option`; Python truthiness of a decimal is
  `≠ None ∧ ≠ 0`;
* database tables are `List`s of records, querysets are list filters;
* each Django method or view is a Lean function over the records it touches.
-/

namespace Wisham

/-- Timestamps are integer seconds. `timedelta(hours = n)`. -/
def timedelta_hours (n : ℤ) : ℤ := n * 3600

/-! ## users/models.py -/

/-- A `CustomUser` row: the fields role-gating depends on
(`users/models.py`, class `CustomUser`). -/
structure CustomUser where
  id : Nat
  role : String
deriving DecidableEq, Repr

/-- A `Property` row: the fields access control depends on
(`properties/models.py`, class `Property`). -/
structure Property where
  id : Nat
  owner : Nat
  manager : Option Nat
deriving DecidableEq, Repr

/-- A `RentalUnit` row (`properties/models.py`, class `RentalUnit`). -/
structure RentalUnit where
  id : Nat
  propertyId : Nat
  rent_amount : ℚ
  deposit_amount : ℚ
  is_available : Bool
  current_tenant : Option Nat
deriving DecidableEq, Repr

/-- The relational state the user-facing queries range over. -/
structure Database where
  properties : List Property
  units : List RentalUnit
deriving Repr

/-- `CustomUser.has_property_access` (`users/models.py` lines 49-74):
role-gated existence queries against the property / rental-unit tables. -/
def CustomUser.has_property_access (db : Database) (user : CustomUser)
    (property_id : Nat) : Bool :=
  if user.role = "ADMIN" then
    true
  else if user.role = "PROPERTY_MANAGER" then
    db.properties.any (fun p => decide (p.id = property_id ∧ p.manager = some user.id))
  else if user.role = "LANDLORD" then
    db.properties.any (fun p => decide (p.id = property_id ∧ p.owner = user.id))
  else if user.role = "TENANT" then
    db.units.any (fun u => decide (u.propertyId = property_id ∧ u.current_tenant = some user.id))
  else
    false

/-- `CustomUser.get_accessible_properties` (`users/models.py` lines 76-93):
role-based queryset filtering. -/
def CustomUser.get_accessible_properties (db : Database) (user : CustomUser) :
    List Property :=
  if user.role = "ADMIN" then
    db.properties
  else if user.role = "PROPERTY_MANAGER" then
    db.properties.filter (fun p => decide (p.manager = some user.id))
  else if user.role = "LANDLORD" then
    db.properties.filter (fun p => decide (p.owner = user.id))
  else if user.role = "TENANT" then
    let property_ids :=
      (db.units.filter (fun u => decide (u.current_tenant = some user.id))).map
        (fun u => u.propertyId)
    db.properties.filter (fun p => decide (p.id ∈ property_ids))
  else
    []

/-! ## properties/models.py : UnitReservation -/

/-- A `UnitReservation` row (`properties/models.py`, class `UnitReservation`).
`expires_at` is always populated after `__init__`, so it is a plain `ℤ` here;
the `__init__` defaulting is `UnitReservation.initFields`. -/
structure UnitReservation where
  id : Nat
  unit : Nat
  tenant : Nat
  intended_move_in_date : ℤ
  status : String
  security_deposit_paid : Bool
  payment_reference : String
  payment_date : Option ℤ
  expires_at : ℤ
deriving DecidableEq, Repr

/-- `UnitReservation.__init__` (`properties/models.py` lines 338-344):
field defaults from the model declaration, plus the explicit
`if not self.expires_at: self.expires_at = timezone.now() + timedelta(hours=24)`. -/
def UnitReservation.initFields (now : ℤ) (idv unitId tenantId : Nat)
    (moveIn : ℤ) (expiresArg : Option ℤ) : UnitReservation :=
  { id := idv
    unit := unitId
    tenant := tenantId
    intended_move_in_date := moveIn
    status := "pending"
    security_deposit_paid := false
    payment_reference := ""
    payment_date := none
    expires_at :=
      match expiresArg with
      | none => now + timedelta_hours 24
      | some t => t }

/-- `UnitReservation.is_expired` (`properties/models.py` lines 349-352):
`timezone.now() > self.expires_at`. -/
def UnitReservation.is_expired (r : UnitReservation) (now : ℤ) : Bool :=
  decide (r.expires_at < now)

/-- `UnitReservation.can_pay_deposit` (`properties/models.py` lines 354-356). -/
def UnitReservation.can_pay_deposit (r : UnitReservation) (now : ℤ) : Bool :=
  decide (r.status = "pending") && !(r.is_expired now)

/-- `UnitReservation.save` (`properties/models.py` lines 385-389):
auto-expires a pending reservation whose expiry has passed, then persists. -/
def UnitReservation.save (r : UnitReservation) (now : ℤ) : UnitReservation :=
  if r.is_expired now && decide (r.status = "pending") then
    { r with status := "expired" }
  else
    r

/-- `UnitReservation.confirm_payment` (`properties/models.py` lines 358-369):
marks the reservation paid and the unit unavailable. -/
def UnitReservation.confirm_payment (r : UnitReservation) (u : RentalUnit)
    (now : ℤ) (ref : String) : UnitReservation × RentalUnit :=
  let r2 : UnitReservation :=
    { r with
      status := "paid"
      security_deposit_paid := true
      payment_reference := ref
      payment_date := some now }
  (r2.save now, { u with is_available := false })

/-! ## properties/models.py : RentalUnit status helpers -/

/-- `RentalUnit.is_occupied` (`properties/models.py` lines 279-281). -/
def RentalUnit.is_occupied (u : RentalUnit) : Bool :=
  u.current_tenant.isSome

/-- `RentalUnit.has_active_reservation` (`properties/models.py` lines 283-285):
`self.reservations.filter(status='pending').exists()`. -/
def RentalUnit.has_active_reservation (u : RentalUnit)
    (reservations : List UnitReservation) : Bool :=
  reservations.any (fun r => decide (r.unit = u.id ∧ r.status = "pending"))

/-- `RentalUnit.can_be_reserved` (`properties/models.py` lines 287-289). -/
def RentalUnit.can_be_reserved (u : RentalUnit)
    (reservations : List UnitReservation) : Bool :=
  u.is_available && !u.is_occupied && !(u.has_active_reservation reservations)

/-! ## properties/views.py -/

/-- `reserve_unit` view (`properties/views.py` lines 152-195), POST path.
Returns `none` when the request is rejected (wrong role, unit not reservable,
or an existing pending/paid reservation of the same tenant), otherwise the
persisted reservation.  The view fills `unit`, `tenant` and
`expires_at = timezone.now() + timedelta(hours=24)` before calling `save`. -/
def reserve_unit (user : CustomUser) (u : RentalUnit)
    (reservations : List UnitReservation) (newId : Nat) (moveIn : ℤ)
    (now : ℤ) : Option UnitReservation :=
  if user.role ≠ "TENANT" then
    none
  else if !(u.can_be_reserved reservations) then
    none
  else if reservations.any
      (fun r => decide (r.tenant = user.id ∧ (r.status = "pending" ∨ r.status = "paid"))) then
    none
  else
    let r := UnitReservation.initFields now newId u.id user.id moveIn none
    some (UnitReservation.save
      { r with unit := u.id, tenant := user.id,
               expires_at := now + timedelta_hours 24 } now)

/-- Outcome of the `payment_redirect` view. -/
inductive RedirectOutcome where
  | forbidden
  | rejected
  | payForm (amount : ℚ)
deriving DecidableEq, Repr

/-- `payment_redirect` view (`properties/views.py` lines 222-257): rejects a
reservation the user does not own or that can no longer be paid, otherwise
renders the payment form charging `reservation.unit.deposit_amount`. -/
def payment_redirect (userId : Nat) (r : UnitReservation) (u : RentalUnit)
    (now : ℤ) : RedirectOutcome :=
  if r.tenant ≠ userId then
    .forbidden
  else if !(r.can_pay_deposit now) then
    .rejected
  else
    .payForm u.deposit_amount

/-- `payment_success` view in `properties/views.py` (lines 260-274): after the
ownership check it calls `reservation.confirm_payment(...)` unconditionally.
`none` models the 403 response. -/
def payment_success_callback (userId : Nat) (r : UnitReservation)
    (u : RentalUnit) (now : ℤ) (ref : String) :
    Option (UnitReservation × RentalUnit) :=
  if r.tenant ≠ userId then
    none
  else
    some (r.confirm_payment u now ref)

/-! ## payments/models.py -/

/-- A `Payment` row (`payments/models.py`, class `Payment`), restricted to
the fields the claims touch. -/
structure Payment where
  tenant : Nat
  rental_unit : Nat
  payment_type : String
  payment_method : String
  amount : ℚ
  status : String
  processed_date : Option ℤ
deriving DecidableEq, Repr

/-- The five declared payment statuses
(`payments/models.py`, `Payment.PAYMENT_STATUS`). -/
def PAYMENT_STATUS : List String :=
  ["pending", "processing", "completed", "failed", "cancelled"]

/-- A `SecurityDeposit` row (`payments/models.py`, class `SecurityDeposit`).
`amount` is `none` for an in-memory instance whose amount was never
assigned; a saved row always carries `some`. -/
structure SecurityDeposit where
  tenant : Nat
  rental_unit : Nat
  amount : Option ℚ
  is_paid : Bool
  payment_date : Option ℤ
deriving DecidableEq, Repr

/-- `SecurityDeposit.calculate_deposit_amount`
(`payments/models.py` lines 206-208): `self.rental_unit.rent_amount *
Decimal('1.13')`, with the deposit's rental unit passed explicitly. -/
def SecurityDeposit.calculate_deposit_amount (u : RentalUnit) : ℚ :=
  u.rent_amount * (1.13 : ℚ)

/-- `SecurityDeposit.save` (`payments/models.py` lines 210-213):
`if not self.amount: self.amount = self.calculate_deposit_amount()`.
A Python decimal is falsy when it is `None` or zero. -/
def SecurityDeposit.save (d : SecurityDeposit) (u : RentalUnit) :
    SecurityDeposit :=
  if d.amount = none ∨ d.amount = some 0 then
    { d with amount := some (SecurityDeposit.calculate_deposit_amount u) }
  else
    d

/-- `SecurityDeposit.objects.get_or_create(tenant=..., rental_unit=...,
defaults=...)`: returns the existing row for this tenant and unit, or
creates one with the given default amount (running the custom `save`). -/
def getOrCreateDeposit (deposits : List SecurityDeposit) (tenantId : Nat)
    (u : RentalUnit) (defaultAmount : Option ℚ) : SecurityDeposit :=
  match deposits.find?
      (fun d => decide (d.tenant = tenantId ∧ d.rental_unit = u.id)) with
  | some d => d
  | none =>
      SecurityDeposit.save
        { tenant := tenantId, rental_unit := u.id, amount := defaultAmount,
          is_paid := false, payment_date := none } u

/-! ## payments/views.py -/

/-- Outcome of the `security_deposit_mpesa` view. -/
inductive DepositChargeOutcome where
  | forbidden
  | notFound
  | alreadyPaid
  | charged (p : Payment)
deriving DecidableEq, Repr

/-- `security_deposit_mpesa` view (`payments/views.py` lines 163-214), POST
path with a valid MPesa form: fetches the tenant's unit (404 when the unit is
not currently rented by the user), gets or creates the `SecurityDeposit` row
with default amount `rental_unit.rent_amount * Decimal('1.13')`, and creates
a pending `Payment` charging `deposit.amount`. -/
def security_deposit_mpesa (user : CustomUser) (u : RentalUnit)
    (deposits : List SecurityDeposit) : DepositChargeOutcome :=
  if user.role ≠ "TENANT" then
    .forbidden
  else if u.current_tenant ≠ some user.id then
    .notFound
  else
    let deposit := getOrCreateDeposit deposits user.id u
      (some (u.rent_amount * (1.13 : ℚ)))
    if deposit.is_paid then
      .alreadyPaid
    else
      .charged
        { tenant := user.id, rental_unit := u.id,
          payment_type := "security_deposit", payment_method := "mpesa",
          amount := deposit.amount.getD 0, status := "pending",
          processed_date := none }

/-- Outcome of the `update_payment_status` view.  `invalidStatus` carries the
unchanged payment (nothing is saved on that path). -/
inductive UpdateOutcome where
  | forbidden
  | invalidStatus (p : Payment)
  | updated (p : Payment) (d : Option SecurityDeposit)
deriving DecidableEq, Repr

/-- `update_payment_status` view (`payments/views.py` lines 484-514), POST
path: role gate, then accept only the five declared statuses; on
`'completed'` also stamp `processed_date` and, for a security-deposit
payment, mark the tenant's `SecurityDeposit` row for the unit as paid. -/
def update_payment_status (userRole : String) (p : Payment)
    (deposits : List SecurityDeposit) (u : RentalUnit) (newStatus : String)
    (now : ℤ) : UpdateOutcome :=
  if ¬(userRole = "ADMIN" ∨ userRole = "PROPERTY_MANAGER") then
    .forbidden
  else if newStatus ∈ PAYMENT_STATUS then
    let p2 := { p with status := newStatus }
    if newStatus = "completed" then
      let p3 := { p2 with processed_date := some now }
      if p2.payment_type = "security_deposit" then
        let d0 := getOrCreateDeposit deposits p.tenant u none
        let d1 := SecurityDeposit.save
          { d0 with is_paid := true, payment_date := some now } u
        .updated p3 (some d1)
      else
        .updated p3 none
    else
      .updated p2 none
  else
    .invalidStatus p

/-! ## users/models.py save override and users/signals.py -/

/-- The four role-based group names
(`users/models.py`, `Role`; `users/signals.py` line 32). -/
def role_group_names : List String :=
  ["ADMIN", "PROPERTY_MANAGER", "LANDLORD", "TENANT"]

/-- `user.groups.add(group)`: many-to-many add, a no-op when the user is
already in the group. -/
def groups_add (groups : List String) (g : String) : List String :=
  if g ∈ groups then groups else groups ++ [g]

/-- `CustomUser.assign_role_permissions` (`users/models.py` lines 103-117)
and the body of the `assign_user_group` signal
(`users/signals.py` lines 30-42): remove the user from every role-based
group that exists, then add them to the group named after their role,
skipping silently when that group does not exist.  `existingGroups` is the
`Group` table; `groups` the user's group memberships.
`remove_role_groups` is the removal step
(`self.groups.remove(*role_groups)` where `role_groups` are the existing
groups named after roles). -/
def remove_role_groups (existingGroups : List String)
    (groups : List String) : List String :=
  groups.filter
    (fun g => !(decide (g ∈ role_group_names) && decide (g ∈ existingGroups)))

/-- The remove-then-add sequence of `assign_role_permissions` /
`assign_user_group`. -/
def assign_role_permissions (existingGroups : List String) (role : String)
    (groups : List String) : List String :=
  if role ∈ existingGroups then
    groups_add (remove_role_groups existingGroups groups) role
  else
    remove_role_groups existingGroups groups

/-- `CustomUser.save` (`users/models.py` lines 95-101): runs
`assign_role_permissions` when the row is new or `'role'` is among the
save's `update_fields`. -/
def CustomUser.save (existingGroups : List String) (isNew : Bool)
    (updateFields : List String) (role : String) (groups : List String) :
    List String :=
  if isNew || decide ("role" ∈ updateFields) then
    assign_role_permissions existingGroups role groups
  else
    groups

/-- `assign_user_group` post-save signal (`users/signals.py` lines 21-42):
returns early unless the row was created or `'role'` was updated, then
performs the same remove-all / add-one sequence. -/
def assign_user_group (existingGroups : List String) (created : Bool)
    (updateFields : List String) (role : String) (groups : List String) :
    List String :=
  if !created && !(decide ("role" ∈ updateFields)) then
    groups
  else
    assign_role_permissions existingGroups role groups

/-! ## properties/models.py : PropertyImage -/

/-- A `PropertyImage` row (`properties/models.py`, class `PropertyImage`). -/
structure PropertyImage where
  pk : Nat
  propertyId : Nat
  is_primary : Bool
deriving DecidableEq, Repr

/-- The queryset update inside `PropertyImage.save`: clears `is_primary` on
a row of the same property that is primary and is not the row being saved
(`.filter(property=..., is_primary=True).exclude(pk=self.pk)
.update(is_primary=False)`). -/
def clearOtherPrimary (img : PropertyImage) (i : PropertyImage) :
    PropertyImage :=
  if i.propertyId = img.propertyId ∧ i.is_primary = true ∧ i.pk ≠ img.pk then
    { i with is_primary := false }
  else
    i

/-- `super().save()` at the row level: update the row with this primary key
if present, else insert it. -/
def upsertImage (imgs : List PropertyImage) (img : PropertyImage) :
    List PropertyImage :=
  if imgs.any (fun i => decide (i.pk = img.pk)) then
    imgs.map (fun i => if i.pk = img.pk then img else i)
  else
    imgs ++ [img]

/-- `PropertyImage.save` (`properties/models.py` lines 177-184) acting on
the image table: when saving a primary image, first clear the primary flag
on every other image of the same property, then persist the row. -/
def PropertyImage.save (imgs : List PropertyImage) (img : PropertyImage) :
    List PropertyImage :=
  let imgs2 := if img.is_primary then imgs.map (clearOtherPrimary img) else imgs
  upsertImage imgs2 img

/-- The one-primary-image-per-property invariant: two primary images of the
same property are the same row. -/
def one_primary_per_property (imgs : List PropertyImage) : Prop :=
  ∀ i ∈ imgs, ∀ j ∈ imgs, i.is_primary = true → j.is_primary = true →
    i.propertyId = j.propertyId → i.pk = j.pk

/-! ## payments/forms.py : PaymentForm.clean -/

/-- The `cleaned_data` dictionary reaching `PaymentForm.clean`
(`payments/forms.py`): a field is `none` when it was left blank or failed
field-level validation.  Dates are day numbers. -/
structure CleanedData where
  payment_type : Option String
  months_paid_for : Option Nat
  rent_period_start : Option ℤ
  rent_period_end : Option ℤ
  amount : Option ℚ
  rental_unit : Option RentalUnit
deriving DecidableEq, Repr

/-- `PaymentForm.clean` (`payments/forms.py` lines 47-78).  For rent
payments: a falsy (missing or zero) `months_paid_for` is an error, months
outside 1..6 are an error, `rent_period_end` is recomputed as
`rent_period_start + timedelta(days=30*months)` when a start is given, and
the amount check `amount != rental_unit.rent_amount * months` runs only
when `rental_unit` and `amount` are both truthy (`amount` nonzero). -/
def PaymentForm.clean (cd : CleanedData) : Except String CleanedData :=
  if cd.payment_type = some "rent" then
    match cd.months_paid_for with
    | none => .error "Number of months is required for rent payments."
    | some m =>
      if m = 0 then
        .error "Number of months is required for rent payments."
      else if m < 1 ∨ 6 < m then
        .error "Rent payments can only cover 1-6 months."
      else
        let cd2 :=
          match cd.rent_period_start with
          | some s => { cd with rent_period_end := some (s + 30 * (m : ℤ)) }
          | none => cd
        match cd2.rental_unit, cd2.amount with
        | some ru, some a =>
          if a ≠ 0 then
            if a ≠ ru.rent_amount * (m : ℚ) then
              .error "Amount should match the rent for the months paid."
            else
              .ok cd2
          else
            .ok cd2
        | _, _ => .ok cd2
  else
    .ok cd

/-! ## Concrete sample records used by witnesses and counterexamples -/

/-- A unit whose stored `deposit_amount` (50) differs from 113% of its rent
(100 × 1.13 = 113); both fields are landlord-entered in `RentalUnitForm`. -/
def unitA : RentalUnit :=
  { id := 1, propertyId := 1, rent_amount := 100, deposit_amount := 50,
    is_available := true, current_tenant := some 7 }

/-- A pending reservation for `unitA`, not yet expired at time 0. -/
def resA : UnitReservation :=
  { id := 1, unit := 1, tenant := 7, intended_move_in_date := 0,
    status := "pending", security_deposit_paid := false,
    payment_reference := "", payment_date := none, expires_at := 100 }

/-- A pending reservation already past its expiry at time 20. -/
def resE : UnitReservation :=
  { id := 2, unit := 1, tenant := 3, intended_move_in_date := 0,
    status := "pending", security_deposit_paid := false,
    payment_reference := "", payment_date := none, expires_at := 10 }

/-- A pending security-deposit payment record. -/
def paymentA : Payment :=
  { tenant := 7, rental_unit := 1, payment_type := "security_deposit",
    payment_method := "mpesa", amount := 113, status := "pending",
    processed_date := none }

/-- A tenant-role user. -/
def userT : CustomUser := { id := 7, role := "TENANT" }

/-- A vacant unit whose `deposit_amount` happens to equal 113% of rent. -/
def unitB : RentalUnit :=
  { id := 2, propertyId := 1, rent_amount := 100, deposit_amount := 113,
    is_available := true, current_tenant := none }

/-- An in-memory security deposit with no amount assigned yet. -/
def depositN : SecurityDeposit :=
  { tenant := 7, rental_unit := 1, amount := none, is_paid := false,
    payment_date := none }

/-- A property owned by user 5 and managed by user 6. -/
def propA : Property := { id := 1, owner := 5, manager := some 6 }

/-- An admin-role user. -/
def userAdm : CustomUser := { id := 9, role := "ADMIN" }

/-- An existing primary image of property 1. -/
def imgP : PropertyImage := { pk := 1, propertyId := 1, is_primary := true }

/-- A new primary image of property 1 with a different primary key. -/
def imgR : PropertyImage := { pk := 2, propertyId := 1, is_primary := true }

/-- Cleaned form data for a rent payment with a zero amount: passes
field-level validation (`MinValueValidator(0)`) yet skips the amount check
in `clean` because `Decimal('0')` is falsy. -/
def cdZero : CleanedData :=
  { payment_type := some "rent", months_paid_for := some 1,
    rent_period_start := none, rent_period_end := some 999,
    amount := some 0, rental_unit := some unitA }

/-- Cleaned form data for a well-formed two-month rent payment. -/
def cdOk : CleanedData :=
  { payment_type := some "rent", months_paid_for := some 2,
    rent_period_start := some 0, rent_period_end := none,
    amount := some 200, rental_unit := some unitA }

/-- A one-property, one-unit database; `unitA` (in `propA`) is rented by
user 7. -/
def dbA : Database := { properties := [propA], units := [unitA] }

/-! ## Helper lemmas -/

lemma UnitReservation.save_expires_at (r : UnitReservation) (now : ℤ) :
    (r.save now).expires_at = r.expires_at := by
  unfold UnitReservation.save
  split <;> rfl

lemma UnitReservation.save_of_status_ne (r : UnitReservation) (now : ℤ)
    (h : r.status ≠ "pending") : r.save now = r := by
  unfold UnitReservation.save
  simp [h]

lemma mem_get_accessible_properties (db : Database) (user : CustomUser)
    (p : Property) :
    p ∈ CustomUser.get_accessible_properties db user ↔
      (p ∈ db.properties ∧
        (user.role = "ADMIN"
         ∨ (user.role = "PROPERTY_MANAGER" ∧ p.manager = some user.id)
         ∨ (user.role = "LANDLORD" ∧ p.owner = user.id)
         ∨ (user.role = "TENANT" ∧ ∃ ru ∈ db.units,
              ru.current_tenant = some user.id ∧ ru.propertyId = p.id))) := by
  unfold CustomUser.get_accessible_properties
  by_cases hA : user.role = "ADMIN"
  · simp [hA]
  · rw [if_neg hA]
    by_cases hPM : user.role = "PROPERTY_MANAGER"
    · rw [if_pos hPM]
      have hL' : user.role ≠ "LANDLORD" := by rw [hPM]; decide
      have hT' : user.role ≠ "TENANT" := by rw [hPM]; decide
      simp [List.mem_filter, hPM, hA, hL', hT']
    · rw [if_neg hPM]
      by_cases hL : user.role = "LANDLORD"
      · rw [if_pos hL]
        have hT' : user.role ≠ "TENANT" := by rw [hL]; decide
        simp [List.mem_filter, hL, hA, hPM, hT']
      · rw [if_neg hL]
        by_cases hT : user.role = "TENANT"
        · rw [if_pos hT]
          simp only [List.mem_filter, List.mem_map, decide_eq_true_eq,
            hT, show ("TENANT" : String) ≠ "ADMIN" from by decide,
            show ("TENANT" : String) ≠ "PROPERTY_MANAGER" from by decide,
            show ("TENANT" : String) ≠ "LANDLORD" from by decide,
            false_and, false_or, true_and]
          constructor
          · rintro ⟨hp, ru, ⟨hru, hten⟩, hpid⟩
            exact ⟨hp, ru, hru, hten, hpid⟩
          · rintro ⟨hp, ru, hru, hten, hpid⟩
            exact ⟨hp, ru, ⟨hru, hten⟩, hpid⟩
        · rw [if_neg hT]
          simp [hA, hPM, hL, hT]

lemma calculate_deposit_amount_eq (u : RentalUnit) :
    SecurityDeposit.calculate_deposit_amount u = u.rent_amount * 113 / 100 := by
  unfold SecurityDeposit.calculate_deposit_amount
  rw [show (1.13 : ℚ) = 113 / 100 by norm_num]
  ring

lemma SecurityDeposit.save_fields (d : SecurityDeposit) (u : RentalUnit) :
    (d.save u).tenant = d.tenant ∧ (d.save u).rental_unit = d.rental_unit
    ∧ (d.save u).is_paid = d.is_paid
    ∧ (d.save u).payment_date = d.payment_date := by
  unfold SecurityDeposit.save
  split <;> simp

lemma getOrCreateDeposit_keys (deposits : List SecurityDeposit)
    (tenantId : Nat) (u : RentalUnit) (da : Option ℚ) :
    (getOrCreateDeposit deposits tenantId u da).tenant = tenantId
    ∧ (getOrCreateDeposit deposits tenantId u da).rental_unit = u.id := by
  unfold getOrCreateDeposit
  cases hfind : deposits.find?
      (fun d => decide (d.tenant = tenantId ∧ d.rental_unit = u.id)) with
  | none =>
      simp only [hfind]
      unfold SecurityDeposit.save
      split <;> exact ⟨rfl, rfl⟩
  | some d0 =>
      simp only [hfind]
      have h := List.find?_some hfind
      simp only [decide_eq_true_eq] at h
      exact ⟨h.1, h.2⟩

lemma mem_groups_add (l : List String) (g x : String) :
    x ∈ groups_add l g ↔ (x ∈ l ∨ x = g) := by
  unfold groups_add
  split
  · rename_i h
    constructor
    · exact Or.inl
    · rintro (hx | rfl)
      · exact hx
      · exact h
  · simp [List.mem_append]

lemma mem_remove_role_groups_not_role_group (existingGroups groups : List String)
    (hfk : ∀ g ∈ groups, g ∈ existingGroups) (a : String)
    (ha : a ∈ remove_role_groups existingGroups groups) :
    a ∉ role_group_names := by
  unfold remove_role_groups at ha
  rw [List.mem_filter] at ha
  obtain ⟨hg, hcond⟩ := ha
  intro hrg
  have he : a ∈ existingGroups := hfk a hg
  simp [hrg, he] at hcond

lemma remove_role_groups_filter_nil (existingGroups groups : List String)
    (hfk : ∀ g ∈ groups, g ∈ existingGroups) :
    (remove_role_groups existingGroups groups).filter
      (fun g => decide (g ∈ role_group_names)) = [] := by
  rw [List.filter_eq_nil_iff]
  intro a ha
  simp only [decide_eq_true_eq]
  exact mem_remove_role_groups_not_role_group existingGroups groups hfk a ha

lemma clearOtherPrimary_pk (img i : PropertyImage) :
    (clearOtherPrimary img i).pk = i.pk := by
  unfold clearOtherPrimary
  split <;> rfl

lemma clearOtherPrimary_propertyId (img i : PropertyImage) :
    (clearOtherPrimary img i).propertyId = i.propertyId := by
  unfold clearOtherPrimary
  split <;> rfl

lemma clearOtherPrimary_primary (img i : PropertyImage)
    (h : (clearOtherPrimary img i).is_primary = true) :
    i.is_primary = true ∧ (i.propertyId = img.propertyId → i.pk = img.pk) := by
  unfold clearOtherPrimary at h
  split at h
  · exact absurd h (by simp)
  · rename_i hcond
    refine ⟨h, fun hprop => ?_⟩
    by_contra hpk
    exact hcond ⟨hprop, h, hpk⟩

lemma mem_PropertyImage_save (imgs : List PropertyImage)
    (img x : PropertyImage) (hx : x ∈ PropertyImage.save imgs img) :
    x = img ∨ ∃ y ∈ imgs,
      (x = if img.is_primary then clearOtherPrimary img y else y)
      ∧ x.pk ≠ img.pk := by
  unfold PropertyImage.save upsertImage at hx
  by_cases hprim : img.is_primary
  · rw [if_pos hprim] at hx
    simp only [] at hx
    split at hx
    · rw [List.mem_map] at hx
      obtain ⟨y2, hy2, hxy⟩ := hx
      rw [List.mem_map] at hy2
      obtain ⟨y, hy, hy2eq⟩ := hy2
      by_cases hpk : y2.pk = img.pk
      · rw [if_pos hpk] at hxy
        exact Or.inl hxy.symm
      · rw [if_neg hpk] at hxy
        refine Or.inr ⟨y, hy, ?_, ?_⟩
        · rw [if_pos hprim, hy2eq, hxy]
        · rw [← hxy]
          exact hpk
    · rename_i hany
      rw [List.mem_append] at hx
      rcases hx with hx | hx
      · rw [List.mem_map] at hx
        obtain ⟨y, hy, hyeq⟩ := hx
        refine Or.inr ⟨y, hy, by rw [if_pos hprim, hyeq], ?_⟩
        intro hpk
        exact hany (List.any_eq_true.mpr
          ⟨x, by rw [← hyeq]; exact List.mem_map_of_mem _ hy,
            by simp [hpk]⟩)
      · rw [List.mem_singleton] at hx
        exact Or.inl hx
  · rw [if_neg hprim] at hx
    simp only [] at hx
    split at hx
    · rw [List.mem_map] at hx
      obtain ⟨y, hy, hxy⟩ := hx
      by_cases hpk : y.pk = img.pk
      · rw [if_pos hpk] at hxy
        exact Or.inl hxy.symm
      · rw [if_neg hpk] at hxy
        refine Or.inr ⟨y, hy, ?_, ?_⟩
        · rw [if_neg hprim, hxy]
        · rw [← hxy]
          exact hpk
    · rename_i hany
      rw [List.mem_append] at hx
      rcases hx with hx | hx
      · refine Or.inr ⟨x, hx, by rw [if_neg hprim], ?_⟩
        intro hpk
        exact hany (List.any_eq_true.mpr ⟨x, hx, by simp [hpk]⟩)
      · rw [List.mem_singleton] at hx
        exact Or.inl hx

/-! ## Claims -/

/-- Claim C2: every newly created unit reservation is a 24-hour hold:
`UnitReservation.__init__` defaults `expires_at` to creation time plus 24
hours exactly when it is unset, the `reserve_unit` view sets it to request
time plus 24 hours, and `is_expired` holds exactly when the current time is
strictly after `expires_at`. -/
theorem C2_reservation_24h (now : ℤ) (idv unitId tenantId : Nat) (moveIn : ℤ)
    (user : CustomUser) (u : RentalUnit) (reservations : List UnitReservation)
    (r : UnitReservation) :
    (UnitReservation.initFields now idv unitId tenantId moveIn none).expires_at
        = now + timedelta_hours 24
    ∧ (∀ t : ℤ, (UnitReservation.initFields now idv unitId tenantId moveIn
        (some t)).expires_at = t)
    ∧ (∀ res, reserve_unit user u reservations idv moveIn now = some res →
        res.expires_at = now + timedelta_hours 24)
    ∧ (r.is_expired now = true ↔ r.expires_at < now) := by
  refine ⟨rfl, fun t => rfl, ?_, ?_⟩
  · intro res hres
    unfold reserve_unit at hres
    split at hres
    · exact absurd hres (by simp)
    · split at hres
      · exact absurd hres (by simp)
      · split at hres
        · exact absurd hres (by simp)
        · simp only [Option.some.injEq] at hres
          subst hres
          rw [UnitReservation.save_expires_at]
  · unfold UnitReservation.is_expired
    exact decide_eq_true_iff

/-- Witness for C2 at a concrete input. -/
theorem C2_reservation_24h_witness :
    (UnitReservation.initFields 0 1 1 1 0 none).expires_at
        = 0 + timedelta_hours 24
    ∧ (∀ t : ℤ, (UnitReservation.initFields 0 1 1 1 0 (some t)).expires_at = t)
    ∧ (∀ res, reserve_unit ⟨1, "TENANT"⟩ ⟨1, 1, 100, 113, true, none⟩ [] 1 0 0
        = some res → res.expires_at = 0 + timedelta_hours 24)
    ∧ ((⟨1, 1, 1, 0, "pending", false, "", none, 86400⟩ :
          UnitReservation).is_expired 0 = true ↔
        (86400 : ℤ) < 0) :=
  C2_reservation_24h 0 1 1 1 0 ⟨1, "TENANT"⟩ ⟨1, 1, 100, 113, true, none⟩ []
    ⟨1, 1, 1, 0, "pending", false, "", none, 86400⟩

/-- Claim C5: `UnitReservation.save` auto-expires exactly the pending, past
expiry reservations and leaves every other status untouched; hence a
reservation is never simultaneously pending and past expiry at the moment it
is saved. -/
theorem C5_save_auto_expire (r : UnitReservation) (now : ℤ) :
    (r.save now =
      if r.status = "pending" ∧ r.is_expired now = true then
        { r with status := "expired" }
      else r)
    ∧ ¬(((r.save now).status = "pending")
        ∧ ((r.save now).is_expired now = true)) := by
  constructor
  · unfold UnitReservation.save
    by_cases hp : r.status = "pending" <;> by_cases he : r.is_expired now = true <;>
      simp [hp, he]
  · intro ⟨hst, hexp⟩
    unfold UnitReservation.save at hst hexp
    by_cases hp : r.status = "pending"
    · by_cases he : r.is_expired now = true
      · simp [hp, he] at hst
      · simp only [he, Bool.false_and, Bool.and_eq_true] at hexp
        rw [if_neg] at hexp
        · unfold UnitReservation.is_expired at he hexp
          exact he hexp
        · simp [he]
    · rw [if_neg (by simp [hp])] at hst
      exact hp hst

/-- Witness for C5 at a concrete input. -/
theorem C5_save_auto_expire_witness :
    ((⟨1, 1, 1, 0, "pending", false, "", none, 10⟩ : UnitReservation).save 20 =
      if ("pending" : String) = "pending" ∧
          (⟨1, 1, 1, 0, "pending", false, "", none, 10⟩ :
            UnitReservation).is_expired 20 = true then
        { (⟨1, 1, 1, 0, "pending", false, "", none, 10⟩ : UnitReservation) with
          status := "expired" }
      else ⟨1, 1, 1, 0, "pending", false, "", none, 10⟩)
    ∧ ¬((((⟨1, 1, 1, 0, "pending", false, "", none, 10⟩ :
          UnitReservation).save 20).status = "pending")
        ∧ (((⟨1, 1, 1, 0, "pending", false, "", none, 10⟩ :
          UnitReservation).save 20).is_expired 20 = true)) :=
  C5_save_auto_expire ⟨1, 1, 1, 0, "pending", false, "", none, 10⟩ 20

/-- Counterexample to claim C1: the claim says every operation that charges a
security deposit charges 113% of the unit's monthly rent, but the
`payment_redirect` view charges the unit's stored `deposit_amount` field.
For `unitA` (rent 100, `deposit_amount` 50) the view, in a reachable state
(`can_pay_deposit` holds), charges 50 while 113% of rent is 113. -/
theorem C1_deposit_113_cex :
    UnitReservation.can_pay_deposit resA 0 = true
    ∧ payment_redirect 7 resA unitA 0 = .payForm 50
    ∧ SecurityDeposit.calculate_deposit_amount unitA = 113
    ∧ (50 : ℚ) ≠ 113 := by
  refine ⟨by decide, by decide, ?_, by norm_num⟩
  rw [calculate_deposit_amount_eq]
  norm_num [unitA]

/-- Claim C1 (amended): `SecurityDeposit.calculate_deposit_amount` returns
`rent_amount * 1.13`; `SecurityDeposit.save` fills in exactly this amount
whenever the amount field is unset (None or zero); the payments-app deposit
views charge the `SecurityDeposit` record's amount, which equals 113% of
rent when the record is freshly created; but `payment_redirect` charges the
unit's stored `deposit_amount` field, which need not equal 113% of rent. -/
theorem C1_deposit_113_amended (u : RentalUnit) (d : SecurityDeposit)
    (user : CustomUser) (userId : Nat) (r : UnitReservation) (now : ℤ) :
    SecurityDeposit.calculate_deposit_amount u = u.rent_amount * 113 / 100
    ∧ ((d.save u).amount =
        if d.amount = none ∨ d.amount = some 0 then
          some (u.rent_amount * 113 / 100)
        else d.amount)
    ∧ (∀ p, security_deposit_mpesa user u [] = .charged p →
        p.amount = u.rent_amount * 113 / 100)
    ∧ (∀ a, payment_redirect userId r u now = .payForm a →
        a = u.deposit_amount) := by
  refine ⟨calculate_deposit_amount_eq u, ?_, ?_, ?_⟩
  · unfold SecurityDeposit.save
    split
    · simp [calculate_deposit_amount_eq]
    · rfl
  · intro p hp
    unfold security_deposit_mpesa at hp
    split at hp
    · exact absurd hp (by simp)
    · split at hp
      · exact absurd hp (by simp)
      · simp only [getOrCreateDeposit, List.find?_nil] at hp
        unfold SecurityDeposit.save at hp
        by_cases hz : (some (u.rent_amount * (1.13 : ℚ)) : Option ℚ) = none
            ∨ (some (u.rent_amount * (1.13 : ℚ)) : Option ℚ) = some 0
        · rw [if_pos hz] at hp
          split at hp
          · exact absurd hp (by simp)
          · simp only [DepositChargeOutcome.charged.injEq] at hp
            subst hp
            simp [calculate_deposit_amount_eq]
        · rw [if_neg hz] at hp
          split at hp
          · exact absurd hp (by simp)
          · simp only [DepositChargeOutcome.charged.injEq] at hp
            subst hp
            simp only [Option.getD_some]
            rw [← calculate_deposit_amount_eq]
            rfl
  · intro a ha
    unfold payment_redirect at ha
    split at ha
    · exact absurd ha (by simp)
    · split at ha
      · exact absurd ha (by simp)
      · simp only [RedirectOutcome.payForm.injEq] at ha
        exact ha.symm

/-- Witness for the amended C1 at concrete inputs. -/
theorem C1_deposit_113_amended_witness :
    SecurityDeposit.calculate_deposit_amount unitA
        = unitA.rent_amount * 113 / 100
    ∧ ((depositN.save unitA).amount =
        if depositN.amount = none ∨ depositN.amount = some 0 then
          some (unitA.rent_amount * 113 / 100)
        else depositN.amount)
    ∧ (∀ p, security_deposit_mpesa userT unitA [] = .charged p →
        p.amount = unitA.rent_amount * 113 / 100)
    ∧ (∀ a, payment_redirect 7 resA unitA 0 = .payForm a →
        a = unitA.deposit_amount) :=
  C1_deposit_113_amended unitA depositN userT 7 resA 0

/-- Counterexample to claim C3: the claim says every path that confirms a
security-deposit payment rejects a reservation with `can_pay_deposit` false,
leaving the reservation and unit unchanged; but `payment_success` in
`properties/views.py` calls `confirm_payment` unconditionally after the
ownership check.  At time 20 the pending reservation `resE` (expiry 10) has
`can_pay_deposit` false, yet the view flips it to `'paid'` and marks the
unit unavailable. -/
theorem C3_pay_gate_cex :
    UnitReservation.can_pay_deposit resE 20 = false
    ∧ payment_success_callback 3 resE unitB 20 "REF"
        = some ({ resE with
                    status := "paid"
                    security_deposit_paid := true
                    payment_reference := "REF"
                    payment_date := some 20 },
                { unitB with is_available := false }) := by
  exact ⟨by decide, by decide⟩

/-- Claim C3 (amended): `can_pay_deposit` holds exactly when the status is
`'pending'` and the reservation is not expired, and `payment_redirect`
rejects a reservation the user does not own or whose `can_pay_deposit` is
false, leaving all state unchanged; `payment_success`, however, confirms the
payment unconditionally for the owning tenant — whenever it returns an
updated state the reservation is `'paid'` and the unit unavailable,
regardless of `can_pay_deposit`. -/
theorem C3_pay_gate_amended (r : UnitReservation) (u : RentalUnit) (now : ℤ)
    (userId : Nat) (ref : String) :
    (r.can_pay_deposit now = true ↔
      (r.status = "pending" ∧ r.is_expired now = false))
    ∧ (payment_redirect userId r u now =
        if r.tenant = userId then
          (if r.can_pay_deposit now then .payForm u.deposit_amount
           else .rejected)
        else .forbidden)
    ∧ (∀ r' u', payment_success_callback userId r u now ref = some (r', u') →
        r.tenant = userId ∧ r'.status = "paid"
          ∧ r'.security_deposit_paid = true ∧ u'.is_available = false) := by
  refine ⟨?_, ?_, ?_⟩
  · unfold UnitReservation.can_pay_deposit
    simp [Bool.and_eq_true, Bool.not_eq_true']
  · unfold payment_redirect
    by_cases ht : r.tenant = userId
    · simp only [ht, ne_eq, not_true_eq_false, if_false, if_true, ite_not]
      by_cases hc : r.can_pay_deposit now = true
      · simp [hc]
      · simp [Bool.not_eq_true] at hc
        simp [hc]
    · simp [ht]
  · intro r' u' h
    unfold payment_success_callback at h
    split at h
    · exact absurd h (by simp)
    · rename_i ht
      rw [not_not] at ht
      unfold UnitReservation.confirm_payment at h
      simp only [Option.some.injEq, Prod.mk.injEq] at h
      obtain ⟨hr', hu'⟩ := h
      refine ⟨ht, ?_, ?_, ?_⟩
      · rw [← hr', UnitReservation.save_of_status_ne _ now (by simp)]
      · rw [← hr', UnitReservation.save_of_status_ne _ now (by simp)]
      · rw [← hu']

/-- Witness for the amended C3 at concrete inputs. -/
theorem C3_pay_gate_amended_witness :
    (UnitReservation.can_pay_deposit resA 0 = true ↔
      (resA.status = "pending" ∧ resA.is_expired 0 = false))
    ∧ (payment_redirect 7 resA unitA 0 =
        if resA.tenant = 7 then
          (if resA.can_pay_deposit 0 then .payForm unitA.deposit_amount
           else .rejected)
        else .forbidden)
    ∧ (∀ r' u', payment_success_callback 7 resA unitA 0 "REF" = some (r', u') →
        resA.tenant = 7 ∧ r'.status = "paid"
          ∧ r'.security_deposit_paid = true ∧ u'.is_available = false) :=
  C3_pay_gate_amended resA unitA 0 7 "REF"

/-- Claim C7: `update_payment_status` accepts only the five declared payment
statuses, leaving the payment unchanged and reporting an error otherwise;
exactly on `'completed'` it stamps `processed_date` with the current time
and, for a security-deposit payment, marks the tenant's `SecurityDeposit`
record for that unit as paid with a payment date. -/
theorem C7_update_payment_status_valid (userRole : String) (p : Payment)
    (deposits : List SecurityDeposit) (u : RentalUnit) (newStatus : String)
    (now : ℤ) (hrole : userRole = "ADMIN" ∨ userRole = "PROPERTY_MANAGER") :
    (newStatus ∉ PAYMENT_STATUS →
      update_payment_status userRole p deposits u newStatus now
        = .invalidStatus p)
    ∧ (∀ p2 d, update_payment_status userRole p deposits u newStatus now
          = .updated p2 d →
        newStatus ∈ PAYMENT_STATUS
        ∧ p2.status = newStatus
        ∧ p2.tenant = p.tenant ∧ p2.amount = p.amount
        ∧ p2.payment_type = p.payment_type
        ∧ p2.processed_date =
            (if newStatus = "completed" then some now else p.processed_date)
        ∧ ((newStatus = "completed" ∧ p.payment_type = "security_deposit") →
            ∃ dd, d = some dd ∧ dd.is_paid = true ∧ dd.payment_date = some now
              ∧ dd.tenant = p.tenant ∧ dd.rental_unit = u.id)
        ∧ (¬(newStatus = "completed" ∧ p.payment_type = "security_deposit") →
            d = none)) := by
  have hgate : ¬¬(userRole = "ADMIN" ∨ userRole = "PROPERTY_MANAGER") :=
    not_not_intro hrole
  constructor
  · intro hmem
    unfold update_payment_status
    rw [if_neg hgate, if_neg hmem]
  · intro p2 d h
    unfold update_payment_status at h
    rw [if_neg hgate] at h
    by_cases hmem : newStatus ∈ PAYMENT_STATUS
    · rw [if_pos hmem] at h
      refine ⟨hmem, ?_⟩
      by_cases hc : newStatus = "completed"
      · rw [if_pos hc] at h
        by_cases hsd : p.payment_type = "security_deposit"
        · rw [if_pos hsd] at h
          simp only [UpdateOutcome.updated.injEq] at h
          obtain ⟨hp2, hd⟩ := h
          subst hp2
          refine ⟨hc.symm ▸ rfl, rfl, rfl, rfl, by simp [hc], ?_, ?_⟩
          · intro _
            refine ⟨_, hd.symm, ?_, ?_, ?_, ?_⟩
            · exact ((SecurityDeposit.save_fields _ u).2.2.1).trans rfl
            · exact ((SecurityDeposit.save_fields _ u).2.2.2).trans rfl
            · exact ((SecurityDeposit.save_fields _ u).1).trans
                (getOrCreateDeposit_keys deposits p.tenant u none).1
            · exact ((SecurityDeposit.save_fields _ u).2.1).trans
                (getOrCreateDeposit_keys deposits p.tenant u none).2
          · intro hno
            exact absurd ⟨hc, hsd⟩ hno
        · rw [if_neg hsd] at h
          simp only [UpdateOutcome.updated.injEq] at h
          obtain ⟨hp2, hd⟩ := h
          subst hp2
          exact ⟨rfl, rfl, rfl, rfl, by simp [hc],
            fun hyes => absurd hyes.2 hsd, fun _ => hd.symm⟩
      · rw [if_neg hc] at h
        simp only [UpdateOutcome.updated.injEq] at h
        obtain ⟨hp2, hd⟩ := h
        subst hp2
        exact ⟨rfl, rfl, rfl, rfl, by simp [hc],
          fun hyes => absurd hyes.1 hc, fun _ => hd.symm⟩
    · rw [if_neg hmem] at h
      exact absurd h (by simp)

/-- Witness for C7 at concrete inputs: an admin submitting an undeclared
status leaves the payment unchanged with an error. -/
theorem C7_update_payment_status_valid_witness :
    update_payment_status "ADMIN" paymentA [] unitA "bogus" 0
      = .invalidStatus paymentA :=
  (C7_update_payment_status_valid "ADMIN" paymentA [] unitA "bogus" 0
    (Or.inl rfl)).1 (by decide)

/-- Claim C4: `get_accessible_properties` filters by role — all properties
for Admin, exactly the managed ones for Property Manager, exactly the owned
ones for Landlord, exactly the properties with a rental unit currently
rented by the user for Tenant, and nothing for any other role value. -/
theorem C4_role_filtering (db : Database) (user : CustomUser) (p : Property) :
    p ∈ CustomUser.get_accessible_properties db user ↔
      (p ∈ db.properties ∧
        (user.role = "ADMIN"
         ∨ (user.role = "PROPERTY_MANAGER" ∧ p.manager = some user.id)
         ∨ (user.role = "LANDLORD" ∧ p.owner = user.id)
         ∨ (user.role = "TENANT" ∧ ∃ ru ∈ db.units,
              ru.current_tenant = some user.id ∧ ru.propertyId = p.id))) :=
  mem_get_accessible_properties db user p

/-- Witness for C4 at a concrete database, user and property. -/
theorem C4_role_filtering_witness :
    propA ∈ CustomUser.get_accessible_properties dbA userT ↔
      (propA ∈ dbA.properties ∧
        (userT.role = "ADMIN"
         ∨ (userT.role = "PROPERTY_MANAGER" ∧ propA.manager = some userT.id)
         ∨ (userT.role = "LANDLORD" ∧ propA.owner = userT.id)
         ∨ (userT.role = "TENANT" ∧ ∃ ru ∈ dbA.units,
              ru.current_tenant = some userT.id ∧ ru.propertyId = propA.id))) :=
  C4_role_filtering dbA userT propA

/-- Claim C9: for every user and every property row (with primary-key
uniqueness of property ids), `has_property_access(property_id)` agrees with
membership in `get_accessible_properties()` — the two role-gating
operations coincide for all four roles and any other role value. -/
theorem C9_access_agreement (db : Database) (user : CustomUser) (p : Property)
    (hp : p ∈ db.properties)
    (huniq : ∀ q ∈ db.properties, q.id = p.id → q = p) :
    CustomUser.has_property_access db user p.id = true ↔
      p ∈ CustomUser.get_accessible_properties db user := by
  rw [mem_get_accessible_properties]
  unfold CustomUser.has_property_access
  by_cases hA : user.role = "ADMIN"
  · simp [hA, hp]
  · rw [if_neg hA]
    by_cases hPM : user.role = "PROPERTY_MANAGER"
    · rw [if_pos hPM]
      have hL' : user.role ≠ "LANDLORD" := by rw [hPM]; decide
      have hT' : user.role ≠ "TENANT" := by rw [hPM]; decide
      rw [List.any_eq_true]
      constructor
      · rintro ⟨q, hq, hqd⟩
        rw [decide_eq_true_eq] at hqd
        obtain ⟨hid, hm⟩ := hqd
        have hqp : q = p := huniq q hq hid
        subst hqp
        exact ⟨hp, Or.inr (Or.inl ⟨hPM, hm⟩)⟩
      · rintro ⟨hp', hA2 | ⟨_, hm⟩ | ⟨hr, _⟩ | ⟨hr, _⟩⟩
        · exact absurd hA2 hA
        · exact ⟨p, hp, by simp [hm]⟩
        · exact absurd hr hL'
        · exact absurd hr hT'
    · rw [if_neg hPM]
      by_cases hL : user.role = "LANDLORD"
      · rw [if_pos hL]
        have hT' : user.role ≠ "TENANT" := by rw [hL]; decide
        rw [List.any_eq_true]
        constructor
        · rintro ⟨q, hq, hqd⟩
          rw [decide_eq_true_eq] at hqd
          obtain ⟨hid, ho⟩ := hqd
          have hqp : q = p := huniq q hq hid
          subst hqp
          exact ⟨hp, Or.inr (Or.inr (Or.inl ⟨hL, ho⟩))⟩
        · rintro ⟨hp', hA2 | ⟨hr, _⟩ | ⟨_, ho⟩ | ⟨hr, _⟩⟩
          · exact absurd hA2 hA
          · exact absurd hr hPM
          · exact ⟨p, hp, by simp [ho]⟩
          · exact absurd hr hT'
      · rw [if_neg hL]
        by_cases hT : user.role = "TENANT"
        · rw [if_pos hT]
          rw [List.any_eq_true]
          constructor
          · rintro ⟨ru, hru, hd⟩
            rw [decide_eq_true_eq] at hd
            exact ⟨hp, Or.inr (Or.inr (Or.inr
              ⟨hT, ru, hru, hd.2, hd.1⟩))⟩
          · rintro ⟨hp', hA2 | ⟨hr, _⟩ | ⟨hr, _⟩ | ⟨_, ru, hru, hten, hpid⟩⟩
            · exact absurd hA2 hA
            · exact absurd hr hPM
            · exact absurd hr hL
            · exact ⟨ru, hru, by simp [hpid, hten]⟩
        · rw [if_neg hT]
          simp [hA, hPM, hL, hT]

/-- Witness for C9 at a concrete database, user and property. -/
theorem C9_access_agreement_witness :
    propA ∈ dbA.properties
    ∧ (∀ q ∈ dbA.properties, q.id = propA.id → q = propA)
    ∧ (CustomUser.has_property_access dbA userAdm propA.id = true ↔
        propA ∈ CustomUser.get_accessible_properties dbA userAdm) :=
  ⟨by decide, by decide,
    C9_access_agreement dbA userAdm propA (by decide) (by decide)⟩

/-- Claim C6: whenever a user row is created or saved with `'role'` among
the update fields, both the `CustomUser.save` override and the
`assign_user_group` signal run the remove-all-role-groups / add-one
sequence; afterwards (given referential integrity of the membership table)
the user belongs to at most one role group, any role group they belong to
is the one named after their role, and when the group named after their
role exists they belong to it. -/
theorem C6_group_assignment (existingGroups : List String) (created : Bool)
    (updateFields : List String) (role : String) (groups : List String)
    (htrig : created = true ∨ "role" ∈ updateFields)
    (hfk : ∀ g ∈ groups, g ∈ existingGroups) :
    CustomUser.save existingGroups created updateFields role groups
        = assign_role_permissions existingGroups role groups
    ∧ assign_user_group existingGroups created updateFields role groups
        = assign_role_permissions existingGroups role groups
    ∧ ((assign_role_permissions existingGroups role groups).filter
        (fun g => decide (g ∈ role_group_names))).length ≤ 1
    ∧ (∀ g ∈ assign_role_permissions existingGroups role groups,
        g ∈ role_group_names → g = role)
    ∧ (role ∈ role_group_names → role ∈ existingGroups →
        role ∈ assign_role_permissions existingGroups role groups) := by
  refine ⟨?_, ?_, ?_, ?_, ?_⟩
  · unfold CustomUser.save
    have hb : (created || decide ("role" ∈ updateFields)) = true := by
      rcases htrig with h | h
      · simp [h]
      · simp [h]
    rw [if_pos hb]
  · unfold assign_user_group
    have hb : ¬((!created && !(decide ("role" ∈ updateFields))) = true) := by
      rcases htrig with h | h
      · simp [h]
      · simp [h]
    rw [if_neg hb]
  · unfold assign_role_permissions
    by_cases hre : role ∈ existingGroups
    · rw [if_pos hre]
      unfold groups_add
      by_cases hrm : role ∈ remove_role_groups existingGroups groups
      · rw [if_pos hrm, remove_role_groups_filter_nil existingGroups groups hfk]
        simp
      · rw [if_neg hrm, List.filter_append,
          remove_role_groups_filter_nil existingGroups groups hfk]
        simpa using List.length_filter_le _ [role]
    · rw [if_neg hre, remove_role_groups_filter_nil existingGroups groups hfk]
      simp
  · intro g hg hgr
    unfold assign_role_permissions at hg
    by_cases hre : role ∈ existingGroups
    · rw [if_pos hre, mem_groups_add] at hg
      rcases hg with hg | rfl
      · exact absurd hgr
          (mem_remove_role_groups_not_role_group existingGroups groups hfk g hg)
      · rfl
    · rw [if_neg hre] at hg
      exact absurd hgr
        (mem_remove_role_groups_not_role_group existingGroups groups hfk g hg)
  · intro _ hre
    unfold assign_role_permissions
    rw [if_pos hre]
    exact (mem_groups_add _ _ _).mpr (Or.inr rfl)

/-- Witness for C6 at concrete inputs: a newly created tenant with all four
role groups existing and no prior memberships. -/
theorem C6_group_assignment_witness :
    ((true : Bool) = true ∨ "role" ∈ ([] : List String))
    ∧ (∀ g ∈ ([] : List String), g ∈ role_group_names)
    ∧ (CustomUser.save role_group_names true [] "TENANT" []
        = assign_role_permissions role_group_names "TENANT" []
      ∧ assign_user_group role_group_names true [] "TENANT" []
        = assign_role_permissions role_group_names "TENANT" []
      ∧ ((assign_role_permissions role_group_names "TENANT" []).filter
          (fun g => decide (g ∈ role_group_names))).length ≤ 1
      ∧ (∀ g ∈ assign_role_permissions role_group_names "TENANT" [],
          g ∈ role_group_names → g = "TENANT")
      ∧ ("TENANT" ∈ role_group_names → "TENANT" ∈ role_group_names →
          "TENANT" ∈ assign_role_permissions role_group_names "TENANT" [])) :=
  ⟨Or.inl rfl, by simp,
    C6_group_assignment role_group_names true [] "TENANT" [] (Or.inl rfl)
      (by simp)⟩

/-- Claim C8: `PropertyImage.save`, when saving a primary image, clears the
primary flag on every other image of the same property, so saving preserves
the one-primary-image-per-property invariant; and after saving a primary
image every primary image of that property is the saved row. -/
theorem C8_one_primary_image (imgs : List PropertyImage)
    (img : PropertyImage) (hinv : one_primary_per_property imgs) :
    one_primary_per_property (PropertyImage.save imgs img)
    ∧ (img.is_primary = true →
        ∀ i ∈ PropertyImage.save imgs img, i.is_primary = true →
          i.propertyId = img.propertyId → i.pk = img.pk) := by
  have key : ∀ x ∈ PropertyImage.save imgs img, x.is_primary = true →
      x ≠ img → x.pk ≠ img.pk →
      ∃ y ∈ imgs, y.is_primary = true ∧ y.propertyId = x.propertyId
        ∧ y.pk = x.pk
        ∧ (img.is_primary = true → x.propertyId ≠ img.propertyId) := by
    intro x hx hxp hxne hxpk
    rcases mem_PropertyImage_save imgs img x hx with rfl | ⟨y, hy, hxy, _⟩
    · exact absurd rfl hxne
    · by_cases hprim : img.is_primary
      · rw [if_pos hprim] at hxy
        subst hxy
        obtain ⟨hyp, himp⟩ := clearOtherPrimary_primary img y hxp
        refine ⟨y, hy, hyp, (clearOtherPrimary_propertyId img y).symm,
          (clearOtherPrimary_pk img y).symm, fun _ hpe => ?_⟩
        rw [clearOtherPrimary_propertyId] at hpe
        exact hxpk (by rw [clearOtherPrimary_pk]; exact himp hpe)
      · rw [if_neg hprim] at hxy
        subst hxy
        exact ⟨x, hy, hxp, rfl, rfl, fun hc => absurd hc hprim⟩
  constructor
  · intro i hi j hj hip hjp hprop
    by_cases hie : i = img <;> by_cases hje : j = img
    · rw [hie, hje]
    · by_cases hjpk : j.pk = img.pk
      · rw [hie, hjpk]
      · obtain ⟨y, _, _, _, _, hdiff⟩ := key j hj hjp hje hjpk
        exact absurd (hie ▸ hprop).symm (hdiff (hie ▸ hip))
    · by_cases hipk : i.pk = img.pk
      · rw [hje, hipk]
      · obtain ⟨y, _, _, _, _, hdiff⟩ := key i hi hip hie hipk
        exact absurd (hje ▸ hprop) (hdiff (hje ▸ hjp))
    · by_cases hipk : i.pk = img.pk <;> by_cases hjpk : j.pk = img.pk
      · rw [hipk, hjpk]
      · obtain ⟨y, hym, hyp, hyprop, hypk, _⟩ := key j hj hjp hje hjpk
        by_cases hprim : img.is_primary
        · -- i has img's pk but i ≠ img; i came from a cleared row
          rcases mem_PropertyImage_save imgs img i hi with rfl | ⟨z, _, _, hzpk⟩
          · exact absurd rfl hie
          · exact absurd hipk hzpk
        · rcases mem_PropertyImage_save imgs img i hi with rfl | ⟨z, _, _, hzpk⟩
          · exact absurd rfl hie
          · exact absurd hipk hzpk
      · obtain ⟨y, hym, hyp, hyprop, hypk, _⟩ := key i hi hip hie hipk
        rcases mem_PropertyImage_save imgs img j hj with rfl | ⟨z, _, _, hzpk⟩
        · exact absurd rfl hje
        · exact absurd hjpk hzpk
      · obtain ⟨y, hym, hyp, hyprop, hypk, _⟩ := key i hi hip hie hipk
        obtain ⟨z, hzm, hzp, hzprop, hzpk, _⟩ := key j hj hjp hje hjpk
        rw [← hypk, ← hzpk]
        exact hinv y hym z hzm hyp hzp (by rw [hyprop, hzprop, hprop])
  · intro hprim i hi hip hiprop
    by_cases hie : i = img
    · rw [hie]
    · by_cases hipk : i.pk = img.pk
      · exact hipk
      · obtain ⟨y, _, _, _, _, hdiff⟩ := key i hi hip hie hipk
        exact absurd hiprop (hdiff hprim)

/-- Witness for C8 at concrete inputs: saving a new primary image for a
property that already has one. -/
theorem C8_one_primary_image_witness :
    one_primary_per_property [imgP]
    ∧ (one_primary_per_property (PropertyImage.save [imgP] imgR)
      ∧ (imgR.is_primary = true →
          ∀ i ∈ PropertyImage.save [imgP] imgR, i.is_primary = true →
            i.propertyId = imgR.propertyId → i.pk = imgR.pk)) :=
  ⟨by unfold one_primary_per_property; decide,
    C8_one_primary_image [imgP] imgR
      (by unfold one_primary_per_property; decide)⟩

/-- Counterexample to claim C10: the claim says any rent payment whose
amount differs from `rent_amount * months_paid_for` is rejected, but the
amount check runs only when `amount` is truthy: a rent payment with amount
`Decimal('0')` (which passes the field-level `MinValueValidator(0)`) is
accepted by `clean` even though `0 ≠ rent_amount * months`; its submitted
`rent_period_end` (999) is also kept, since no start date was given. -/
theorem C10_rent_clean_cex :
    PaymentForm.clean cdZero = .ok cdZero
    ∧ cdZero.payment_type = some "rent"
    ∧ cdZero.months_paid_for = some 1
    ∧ cdZero.amount = some 0
    ∧ cdZero.rental_unit = some unitA
    ∧ (0 : ℚ) ≠ unitA.rent_amount * ((1 : ℕ) : ℚ)
    ∧ cdZero.rent_period_start = none
    ∧ cdZero.rent_period_end = some 999 := by
  refine ⟨rfl, rfl, rfl, rfl, rfl, ?_, rfl, rfl⟩
  norm_num [unitA]

/-- Claim C10 (amended): a rent payment accepted by `PaymentForm.clean` has
`months_paid_for` between 1 and 6, and — when the rental unit is given and
the amount is given and nonzero — the amount equals
`rent_amount * months_paid_for`; missing or out-of-range months and a
nonzero mismatched amount are each rejected with a `ValidationError`; and
when a `rent_period_start` is given the accepted data has
`rent_period_end = rent_period_start + 30 days * months`.  (A rent payment
with amount zero is accepted without the amount guarantee.) -/
theorem C10_rent_clean_amended (cd : CleanedData)
    (hrent : cd.payment_type = some "rent") :
    (∀ cd2, PaymentForm.clean cd = .ok cd2 →
      ∃ m, cd.months_paid_for = some m ∧ 1 ≤ m ∧ m ≤ 6
        ∧ (∀ ru a, cd.rental_unit = some ru → cd.amount = some a → a ≠ 0 →
            a = ru.rent_amount * (m : ℚ))
        ∧ (∀ s, cd.rent_period_start = some s →
            cd2.rent_period_end = some (s + 30 * (m : ℤ))))
    ∧ (cd.months_paid_for = none → ∃ e, PaymentForm.clean cd = .error e)
    ∧ (∀ m, cd.months_paid_for = some m → (m < 1 ∨ 6 < m) →
        ∃ e, PaymentForm.clean cd = .error e)
    ∧ (∀ m ru a, cd.months_paid_for = some m → 1 ≤ m → m ≤ 6 →
        cd.rental_unit = some ru → cd.amount = some a → a ≠ 0 →
        a ≠ ru.rent_amount * (m : ℚ) →
        ∃ e, PaymentForm.clean cd = .error e) := by
  refine ⟨?_, ?_, ?_, ?_⟩
  · intro cd2 hok
    cases hm : cd.months_paid_for with
    | none => simp [PaymentForm.clean, hrent, hm] at hok
    | some m =>
      by_cases h0 : m = 0
      · simp [PaymentForm.clean, hrent, hm, h0] at hok
      · by_cases hr' : m < 1 ∨ 6 < m
        · rcases hr' with hlt | hgt
          · exact absurd hlt (by omega)
          · simp [PaymentForm.clean, hrent, hm, h0, hgt] at hok
        · have h1 : 1 ≤ m := by omega
          have h6 : m ≤ 6 := by omega
          have h6not : ¬ 6 < m := by omega
          refine ⟨m, rfl, h1, h6, ?_, ?_⟩
          · intro ru a hru ha ha0
            by_contra hne
            cases hs : cd.rent_period_start with
            | none =>
              simp [PaymentForm.clean, hrent, hm, h0, h6not, hs, hru, ha,
                ha0, hne] at hok
            | some s =>
              simp [PaymentForm.clean, hrent, hm, h0, h6not, hs, hru, ha,
                ha0, hne] at hok
          · intro s hs
            cases hru : cd.rental_unit with
            | none =>
              cases ha : cd.amount with
              | none =>
                simp [PaymentForm.clean, hrent, hm, h0, h6not, hs, hru,
                  ha] at hok
                subst hok
                rfl
              | some a =>
                simp [PaymentForm.clean, hrent, hm, h0, h6not, hs, hru,
                  ha] at hok
                subst hok
                rfl
            | some ru =>
              cases ha : cd.amount with
              | none =>
                simp [PaymentForm.clean, hrent, hm, h0, h6not, hs, hru,
                  ha] at hok
                subst hok
                rfl
              | some a =>
                by_cases ha0 : a = 0
                · simp [PaymentForm.clean, hrent, hm, h0, h6not, hs, hru,
                    ha, ha0] at hok
                  subst hok
                  rfl
                · by_cases hne : a = ru.rent_amount * (m : ℚ)
                  · simp [PaymentForm.clean, hrent, hm, h0, h6not, hs, hru,
                      ha, ha0, hne] at hok
                    subst hok
                    rfl
                  · simp [PaymentForm.clean, hrent, hm, h0, h6not, hs, hru,
                      ha, ha0, hne] at hok
  · intro hnone
    exact ⟨"Number of months is required for rent payments.",
      by simp [PaymentForm.clean, hrent, hnone]⟩
  · intro m hm hrange
    by_cases h0 : m = 0
    · exact ⟨"Number of months is required for rent payments.",
        by simp [PaymentForm.clean, hrent, hm, h0]⟩
    · rcases hrange with hlt | hgt
      · exact absurd hlt (by omega)
      · exact ⟨"Rent payments can only cover 1-6 months.",
          by simp [PaymentForm.clean, hrent, hm, h0, hgt]⟩
  · intro m ru a hm h1 h6 hru ha ha0 hne
    have h0 : ¬(m = 0) := by omega
    have h6not : ¬ 6 < m := by omega
    refine ⟨"Amount should match the rent for the months paid.", ?_⟩
    cases hs : cd.rent_period_start with
    | none =>
      simp [PaymentForm.clean, hrent, hm, h0, h6not, hs, hru, ha, ha0, hne]
    | some s =>
      simp [PaymentForm.clean, hrent, hm, h0, h6not, hs, hru, ha, ha0, hne]

/-- Witness for the amended C10 at a concrete cleaned-data record. -/
theorem C10_rent_clean_amended_witness :
    cdOk.payment_type = some "rent"
    ∧ (∀ m, cdOk.months_paid_for = some m → (m < 1 ∨ 6 < m) →
        ∃ e, PaymentForm.clean cdOk = .error e)
    ∧ (∀ cd2, PaymentForm.clean cdOk = .ok cd2 →
        ∃ m, cdOk.months_paid_for = some m ∧ 1 ≤ m ∧ m ≤ 6
          ∧ (∀ ru a, cdOk.rental_unit = some ru → cdOk.amount = some a →
              a ≠ 0 → a = ru.rent_amount * (m : ℚ))
          ∧ (∀ s, cdOk.rent_period_start = some s →
              cd2.rent_period_end = some (s + 30 * (m : ℤ)))) :=
  ⟨rfl, (C10_rent_clean_amended cdOk rfl).2.2.1,
    (C10_rent_clean_amended cdOk rfl).1⟩

end Wisham
